import Mathlib

/-!
Shallow embedding of the wr3d renderer sources (src/camera.rs,
src/material.rs, src/state.rs, src/main.rs).

Modelling conventions:
- f32 scalars are modelled as rationals where their arithmetic matters
  (camera maths, clear colors) and as IEEE-754 bit patterns (naturals
  below 2^32) where only their serialized bytes matter (the material
  uniform buffer, vertex/index buffer contents).
- the external glam crate's Mat4 constructors look_at_rh and
  perspective_rh are embedded from the glam sources; their irrational
  helpers (square root, sine, cosine of half the field of view) are
  passed as explicit function parameters so everything stays computable.
- wgpu handles that carry no data relevant to the claims (device, queue,
  shader modules, samplers) are omitted; a wgpu Buffer is modelled by the
  sequence of 32-bit words it was initialized with, and a bind group by
  the uniform data it binds.
-/

namespace Wr3d

/-- glam Vec3 over rationals. -/
structure Vec3 where
  x : ℚ
  y : ℚ
  z : ℚ
deriving DecidableEq

/-- glam Vec4 over rationals. -/
structure Vec4 where
  x : ℚ
  y : ℚ
  z : ℚ
  w : ℚ
deriving DecidableEq

/-- glam Mat4: four column vectors, column-major as in glam. -/
structure Mat4 where
  x_axis : Vec4
  y_axis : Vec4
  z_axis : Vec4
  w_axis : Vec4
deriving DecidableEq

def Vec3.sub (a b : Vec3) : Vec3 :=
  ⟨a.x - b.x, a.y - b.y, a.z - b.z⟩

def Vec3.neg (v : Vec3) : Vec3 :=
  ⟨-v.x, -v.y, -v.z⟩

def Vec3.dot (a b : Vec3) : ℚ :=
  a.x * b.x + a.y * b.y + a.z * b.z

def Vec3.cross (a b : Vec3) : Vec3 :=
  ⟨a.y * b.z - a.z * b.y, a.z * b.x - a.x * b.z, a.x * b.y - a.y * b.x⟩

/-- glam Vec3::normalize = v / v.length(); the square root is a parameter. -/
def Vec3.normalize (v : Vec3) (sqrtr : ℚ → ℚ) : Vec3 :=
  let len := sqrtr (Vec3.dot v v)
  ⟨v.x / len, v.y / len, v.z / len⟩

def Vec4.scale (v : Vec4) (k : ℚ) : Vec4 :=
  ⟨v.x * k, v.y * k, v.z * k, v.w * k⟩

def Vec4.add (a b : Vec4) : Vec4 :=
  ⟨a.x + b.x, a.y + b.y, a.z + b.z, a.w + b.w⟩

/-- glam Mat4::mul_vec4: linear combination of the columns. -/
def Mat4.mul_vec4 (m : Mat4) (v : Vec4) : Vec4 :=
  (((m.x_axis.scale v.x).add (m.y_axis.scale v.y)).add
    (m.z_axis.scale v.z)).add (m.w_axis.scale v.w)

/-- glam Mat4 multiplication (Mul impl, via mul_mat4). -/
def Mat4.mul (a b : Mat4) : Mat4 :=
  ⟨a.mul_vec4 b.x_axis, a.mul_vec4 b.y_axis, a.mul_vec4 b.z_axis,
    a.mul_vec4 b.w_axis⟩

/-- glam Mat4::look_to_lh. -/
def Mat4.look_to_lh (sqrtr : ℚ → ℚ) (eye dir up : Vec3) : Mat4 :=
  let f := dir.normalize sqrtr
  let s := (up.cross f).normalize sqrtr
  let u := f.cross s
  ⟨⟨s.x, u.x, f.x, 0⟩,
   ⟨s.y, u.y, f.y, 0⟩,
   ⟨s.z, u.z, f.z, 0⟩,
   ⟨-(s.dot eye), -(u.dot eye), -(f.dot eye), 1⟩⟩

/-- glam Mat4::look_to_rh = look_to_lh with the direction negated. -/
def Mat4.look_to_rh (sqrtr : ℚ → ℚ) (eye dir up : Vec3) : Mat4 :=
  Mat4.look_to_lh sqrtr eye dir.neg up

/-- glam Mat4::look_at_rh eye center up = look_to_rh eye (center - eye) up. -/
def Mat4.look_at_rh (sqrtr : ℚ → ℚ) (eye center up : Vec3) : Mat4 :=
  Mat4.look_to_rh sqrtr eye (center.sub eye) up

/-- glam Mat4::perspective_rh (right-handed, zero-to-one depth); sine and
cosine of half the field of view are parameters. -/
def Mat4.perspective_rh (sinr cosr : ℚ → ℚ) (fov_y aspect z_near z_far : ℚ) :
    Mat4 :=
  let sin_fov := sinr (1 / 2 * fov_y)
  let cos_fov := cosr (1 / 2 * fov_y)
  let h := cos_fov / sin_fov
  let w := h / aspect
  let r := z_far / (z_near - z_far)
  ⟨⟨w, 0, 0, 0⟩,
   ⟨0, h, 0, 0⟩,
   ⟨0, 0, r, -1⟩,
   ⟨0, 0, r * z_near, 0⟩⟩

/-- camera.rs: struct Camera.  The source's aspect-ratio field is called
aspect here. -/
structure Camera where
  eye : Vec3
  center : Vec3
  up : Vec3
  aspect : ℚ
  fov : ℚ
  z_near : ℚ
  z_far : ℚ
deriving DecidableEq

/-- camera.rs: Camera::build_view_projection_matrix:
let view = look_at_rh(eye, center, up);
let proj = perspective_rh(fov, aspect_ratio, z_near, z_far);
proj * view. -/
def Camera.build_view_projection_matrix (c : Camera)
    (sqrtr sinr cosr : ℚ → ℚ) : Mat4 :=
  let view := Mat4.look_at_rh sqrtr c.eye c.center c.up
  let proj := Mat4.perspective_rh sinr cosr c.fov c.aspect c.z_near c.z_far
  proj.mul view

/- ------------------------------------------------------------------
material.rs: the repr(C) MaterialRaw struct and its bytemuck byte image.
f32 fields are carried as IEEE-754 bit patterns (Nat below 2^32), since
only the serialized little-endian bytes are observable. -/

/-- Little-endian byte image of one 32-bit word. -/
def le32 (bits : Nat) : List Nat :=
  [bits % 256, bits / 256 % 256, bits / 65536 % 256, bits / 16777216 % 256]

/-- Little-endian byte image of an [f32; 3] field (three 32-bit words). -/
def vec3le (v : Nat × Nat × Nat) : List Nat :=
  le32 v.1 ++ le32 v.2.1 ++ le32 v.2.2

/-- material.rs: struct MaterialRaw (repr(C)): ambient, _padding_0,
diffuse, _padding_1, specular, _padding_2, shininess. -/
structure MaterialRaw where
  ambient : Nat × Nat × Nat
  padding0 : Nat
  diffuse : Nat × Nat × Nat
  padding1 : Nat
  specular : Nat × Nat × Nat
  padding2 : Nat
  shininess : Nat
deriving DecidableEq

/-- bytemuck::cast_slice of the repr(C) MaterialRaw value: the fields'
little-endian bytes in declaration order (offsets 0, 12, 16, 28, 32, 44,
48; 52 bytes in total). -/
def MaterialRaw.toBytes (m : MaterialRaw) : List Nat :=
  vec3le m.ambient ++ le32 m.padding0 ++ vec3le m.diffuse ++ le32 m.padding1
    ++ vec3le m.specular ++ le32 m.padding2 ++ le32 m.shininess

/-- material.rs: the MaterialRaw value built inside Material::new —
shading fields copied from the loader record, both padding words zero. -/
def mkMaterialRaw (ambient diffuse specular : Nat × Nat × Nat)
    (shininess : Nat) : MaterialRaw :=
  ⟨ambient, 0, diffuse, 0, specular, 0, shininess⟩

/-- IEEE-754 single-precision bit pattern of 0.0. -/
def f32_zero : Nat := 0x00000000

/-- IEEE-754 single-precision bit pattern of 1.0. -/
def f32_one : Nat := 0x3F800000

/-- IEEE-754 single-precision bit pattern of 32.0. -/
def f32_thirtytwo : Nat := 0x42000000

/-- The material of claim C6: ambient (1,0,0), diffuse (0,1,0),
specular (0,0,1), shininess 32.0, as built by Material::new. -/
def materialExample : MaterialRaw :=
  mkMaterialRaw (f32_one, f32_zero, f32_zero) (f32_zero, f32_one, f32_zero)
    (f32_zero, f32_zero, f32_one) f32_thirtytwo

/-- The fixed expected byte sequence of the material uniform buffer for
materialExample: each vec3 occupies a 16-byte stride (12 data bytes plus
4 padding bytes), shininess is a trailing scalar at offset 48. -/
def expectedMaterialBytes : List Nat :=
  [0, 0, 128, 63, 0, 0, 0, 0, 0, 0, 0, 0, 0, 0, 0, 0,
   0, 0, 0, 0, 0, 0, 128, 63, 0, 0, 0, 0, 0, 0, 0, 0,
   0, 0, 0, 0, 0, 0, 0, 0, 0, 0, 128, 63, 0, 0, 0, 0,
   0, 0, 0, 66]

/- ------------------------------------------------------------------
state.rs: wgpu-level data actually recorded by the renderer. -/

inductive TextureFormat
  | Bgra8UnormSrgb
  | Rgba8UnormSrgb
  | Depth32Float
deriving DecidableEq

inductive PresentMode
  | Fifo
deriving DecidableEq

inductive TextureUsage
  | OUTPUT_ATTACHMENT
deriving DecidableEq

inductive ShaderStage
  | VERTEX
  | FRAGMENT
deriving DecidableEq

inductive BindingType
  | UniformBuffer (dynamic : Bool)
  | SampledTexture
  | Sampler (comparison : Bool)
deriving DecidableEq

structure BindGroupLayoutEntry where
  binding : Nat
  visibility : ShaderStage
  ty : BindingType
deriving DecidableEq

/-- A bind-group layout is its list of entries. -/
abbrev BindGroupLayout := List BindGroupLayoutEntry

/-- state.rs, State::new: uniform_bind_group_layout — one uniform-buffer
entry at binding 0, vertex-stage visibility (the camera uniform). -/
def uniform_bind_group_layout : BindGroupLayout :=
  [⟨0, ShaderStage.VERTEX, BindingType.UniformBuffer false⟩]

/-- state.rs, State::new: texture_bind_group_layout — a sampled texture at
binding 0 and a sampler at binding 1, fragment-stage visibility. -/
def texture_bind_group_layout : BindGroupLayout :=
  [⟨0, ShaderStage.FRAGMENT, BindingType.SampledTexture⟩,
   ⟨1, ShaderStage.FRAGMENT, BindingType.Sampler false⟩]

/-- material.rs, Material::new: the material uniform's bind-group layout —
one uniform-buffer entry at binding 0, fragment-stage visibility.  It is
built by the material module but never attached to the render pipeline in
state.rs. -/
def material_bind_group_layout : BindGroupLayout :=
  [⟨0, ShaderStage.FRAGMENT, BindingType.UniformBuffer false⟩]

inductive FrontFace
  | Ccw
  | Cw
deriving DecidableEq

inductive CullMode
  | Back
  | Front
deriving DecidableEq

inductive PrimitiveTopology
  | TriangleList
  | TriangleStrip
deriving DecidableEq

inductive IndexFormat
  | Uint16
  | Uint32
deriving DecidableEq

inductive CompareFunction
  | Less
  | LessEqual
  | Always
deriving DecidableEq

/-- wgpu DepthStencilStateDescriptor (the parts a depth test would use). -/
structure DepthStencilStateDescriptor where
  format : TextureFormat
  depth_write_enabled : Bool
  depth_compare : CompareFunction
deriving DecidableEq

inductive VertexFormat
  | Float2
  | Float3
deriving DecidableEq

/-- wgpu VertexBufferDescriptor: byte stride and (shader location, format)
attributes. -/
structure VertexBufferDescriptor where
  stride : Nat
  attributes : List (Nat × VertexFormat)
deriving DecidableEq

/-- The render pipeline as configured in State::new: the pipeline-layout's
bind-group layouts plus the fixed-function state the claims mention. -/
structure RenderPipeline where
  bind_group_layouts : List BindGroupLayout
  front_face : FrontFace
  cull_mode : CullMode
  color_format : TextureFormat
  primitive_topology : PrimitiveTopology
  depth_stencil_state : Option DepthStencilStateDescriptor
  index_format : IndexFormat
  vertex_buffers : List VertexBufferDescriptor
deriving DecidableEq

/-- winit PhysicalSize<u32>. -/
structure PhysicalSize where
  width : Nat
  height : Nat
deriving DecidableEq

/-- wgpu SwapChainDescriptor as stored in State.sc_desc. -/
structure SwapChainDescriptor where
  usage : TextureUsage
  format : TextureFormat
  width : Nat
  height : Nat
  present_mode : PresentMode
deriving DecidableEq

/-- The surface handle carries no data relevant to the claims. -/
inductive Surface
  | mk
deriving DecidableEq

/-- A swap chain records the extent and format it was created with. -/
structure SwapChain where
  width : Nat
  height : Nat
  format : TextureFormat
deriving DecidableEq

/-- device.create_swap_chain(&surface, &sc_desc). -/
def createSwapChain (_su : Surface) (d : SwapChainDescriptor) : SwapChain :=
  ⟨d.width, d.height, d.format⟩

/-- state.rs: struct Uniforms { view_proj: [[f32; 4]; 4] }; the matrix is
kept as a Mat4 (to_cols_array_2d is a bijective repackaging). -/
structure Uniforms where
  view_proj : Mat4
deriving DecidableEq

/-- state.rs: Uniforms::new(&camera). -/
def Uniforms.new (sqrtr sinr cosr : ℚ → ℚ) (camera : Camera) : Uniforms :=
  ⟨camera.build_view_projection_matrix sqrtr sinr cosr⟩

/-- A wgpu Buffer is modelled by the 32-bit words it was initialized
with. -/
abbrev Buffer := List Nat

/-- The loader output used by State::new (tobj mesh record): per-attribute
f32 streams (as bit patterns) and the u32 index stream. -/
structure MeshData where
  positions : List Nat
  normals : List Nat
  texcoords : List Nat
  indices : List Nat
deriving DecidableEq

/-- state.rs: struct State (the device and queue handles, which carry no
observable data, are omitted; uniform_bind_group is modelled by the
Uniforms value its buffer binds, diffuse_bind_group carries no data). -/
structure State where
  surface : Surface
  sc_desc : SwapChainDescriptor
  swap_chain : SwapChain
  size : PhysicalSize
  render_pipeline : RenderPipeline
  pos_buffer : Buffer
  norm_buffer : Buffer
  tex_buffer : Buffer
  index_buffer : Buffer
  num_indices : Nat
  uniform_bind_group : Uniforms
deriving DecidableEq

/-- state.rs, State::new: the camera literal — eye (0,1,2), center zero,
up unit-y, aspect = sc_desc.width / sc_desc.height, fov 0.7, z_near 0.1,
z_far 100.0. -/
def initCamera (w h : Nat) : Camera :=
  { eye := ⟨0, 1, 2⟩
    center := ⟨0, 0, 0⟩
    up := ⟨0, 1, 0⟩
    aspect := (w : ℚ) / (h : ℚ)
    fov := 7 / 10
    z_near := 1 / 10
    z_far := 100 }

/-- state.rs, State::new: the render pipeline descriptor — pipeline layout
[uniform, texture], Ccw front face, back-face culling, color output in the
surface format, triangle-list topology, depth_stencil_state: None, Uint32
indices, three vertex buffers of strides 12, 12 and 8 at shader locations
0, 1 and 2. -/
def initPipeline : RenderPipeline :=
  { bind_group_layouts := [uniform_bind_group_layout, texture_bind_group_layout]
    front_face := FrontFace.Ccw
    cull_mode := CullMode.Back
    color_format := TextureFormat.Bgra8UnormSrgb
    primitive_topology := PrimitiveTopology.TriangleList
    depth_stencil_state := none
    index_format := IndexFormat.Uint32
    vertex_buffers :=
      [⟨12, [(0, VertexFormat.Float3)]⟩,
       ⟨12, [(1, VertexFormat.Float3)]⟩,
       ⟨8, [(2, VertexFormat.Float2)]⟩] }

/-- state.rs: State::new — the pure dataflow of initialization, given the
window's inner size and the loader's mesh record.  sc_desc takes the
window size, the camera aspect is width/height, the uniform is built from
that camera, the swap chain is created from sc_desc, the four buffers take
the mesh streams and num_indices the index count. -/
def State.new (sqrtr sinr cosr : ℚ → ℚ) (size : PhysicalSize)
    (mesh : MeshData) : State :=
  let sc_desc : SwapChainDescriptor :=
    { usage := TextureUsage.OUTPUT_ATTACHMENT
      format := TextureFormat.Bgra8UnormSrgb
      width := size.width
      height := size.height
      present_mode := PresentMode.Fifo }
  let camera := initCamera sc_desc.width sc_desc.height
  { surface := Surface.mk
    sc_desc := sc_desc
    swap_chain := createSwapChain Surface.mk sc_desc
    size := size
    render_pipeline := initPipeline
    pos_buffer := mesh.positions
    norm_buffer := mesh.normals
    tex_buffer := mesh.texcoords
    index_buffer := mesh.indices
    num_indices := mesh.indices.length
    uniform_bind_group := Uniforms.new sqrtr sinr cosr camera }

/-- state.rs: State::resize — unconditionally stores the new size, writes
it into sc_desc and recreates the swap chain from the updated sc_desc.
There is no zero-size check and no camera or uniform update. -/
def State.resize (s : State) (new_size : PhysicalSize) : State :=
  let sc_desc :=
    { s.sc_desc with width := new_size.width, height := new_size.height }
  { s with
    size := new_size
    sc_desc := sc_desc
    swap_chain := createSwapChain s.surface sc_desc }

/- ------------------------------------------------------------------
state.rs: State::render — modelled as the list of commands recorded on
the render pass, with the swap-chain acquisition outcome passed in
explicitly (swap_chain.get_current_frame() depends on the external
presentation engine). -/

/-- wgpu Color. -/
structure Color where
  r : ℚ
  g : ℚ
  b : ℚ
  a : ℚ
deriving DecidableEq

inductive LoadOpColor
  | Clear (c : Color)
  | Load
deriving DecidableEq

/-- wgpu RenderPassDescriptor: the single color attachment's operations
and the optional depth-stencil attachment (which would record its own
depth clear value). -/
structure RenderPassDescriptor where
  color_load : LoadOpColor
  color_store : Bool
  depth_stencil_attachment : Option (TextureFormat × ℚ)
deriving DecidableEq

/-- state.rs, State::render: the render-pass descriptor — clear the color
attachment to (0.1, 0.2, 0.3, 1.0), store it, no depth-stencil
attachment. -/
def renderPassDesc : RenderPassDescriptor :=
  { color_load := LoadOpColor.Clear ⟨1 / 10, 2 / 10, 3 / 10, 1⟩
    color_store := true
    depth_stencil_attachment := none }

/-- What render() binds at a slot. -/
inductive BoundGroup
  | uniformGroup (u : Uniforms)
  | diffuseGroup
deriving DecidableEq

/-- One recorded render-pass command. -/
inductive RenderCommand
  | beginRenderPass (desc : RenderPassDescriptor)
  | setPipeline
  | setBindGroup (slot : Nat) (group : BoundGroup)
  | setVertexBuffer (slot : Nat) (buffer : Buffer)
  | setIndexBuffer (buffer : Buffer)
  | drawIndexed (istart iend : Nat) (base_vertex : Int)
      (inst_start inst_end : Nat)
deriving DecidableEq

/-- state.rs, State::render: the commands recorded between acquiring the
frame and submitting the encoder, in order. -/
def renderCommands (s : State) : List RenderCommand :=
  [RenderCommand.beginRenderPass renderPassDesc,
   RenderCommand.setPipeline,
   RenderCommand.setBindGroup 0 (BoundGroup.uniformGroup s.uniform_bind_group),
   RenderCommand.setBindGroup 1 BoundGroup.diffuseGroup,
   RenderCommand.setVertexBuffer 0 s.pos_buffer,
   RenderCommand.setVertexBuffer 1 s.norm_buffer,
   RenderCommand.setVertexBuffer 2 s.tex_buffer,
   RenderCommand.setIndexBuffer s.index_buffer,
   RenderCommand.drawIndexed 0 s.num_indices 0 0 1]

/-- wgpu SwapChainError. -/
inductive SwapChainError
  | Timeout
  | Outdated
  | Lost
  | OutOfMemory
deriving DecidableEq

/-- The acquired frame carries no data relevant to the claims. -/
inductive Frame
  | mk
deriving DecidableEq

/-- state.rs: State::render.  The ? on get_current_frame() returns the
acquisition error before the command encoder is created; on success the
pass commands are recorded and submitted.  No State field is written in
either case, so the (possibly unchanged) state is returned alongside the
result. -/
def State.render (s : State) (acquire : Except SwapChainError Frame) :
    State × Except SwapChainError (List RenderCommand) :=
  match acquire with
  | Except.error e => (s, Except.error e)
  | Except.ok _ => (s, Except.ok (renderCommands s))

/-- True exactly on drawIndexed commands. -/
def isDrawIndexed : RenderCommand → Bool
  | RenderCommand.drawIndexed _ _ _ _ _ => true
  | _ => false

/-- True exactly on setBindGroup commands for the given slot. -/
def bindsSlot (n : Nat) : RenderCommand → Bool
  | RenderCommand.setBindGroup m _ => m == n
  | _ => false

/- ------------------------------------------------------------------
main.rs: the event loop's per-event behaviour. -/

inductive ControlFlow
  | Poll
  | Exit
deriving DecidableEq

inductive ElementState
  | Pressed
  | Released
deriving DecidableEq

/-- Key codes: Escape and a representative for every other key. -/
inductive VirtualKeyCode
  | Escape
  | OtherKey
deriving DecidableEq

/-- The winit window events the match in main distinguishes; every event
that falls into its catch-all arm is collapsed into OtherEvent. -/
inductive WindowEvent
  | CloseRequested
  | KeyboardInput (state : ElementState) (virtual_keycode : Option VirtualKeyCode)
  | Resized (physical_size : PhysicalSize)
  | ScaleFactorChanged (new_inner_size : PhysicalSize)
  | OtherEvent
deriving DecidableEq

/-- main.rs: the WindowEvent match — CloseRequested exits; a pressed
Escape exits; any other keyboard input does nothing; Resized and
ScaleFactorChanged call state.resize; everything else does nothing. -/
def handleWindowEvent (s : State) (cf : ControlFlow) (e : WindowEvent) :
    State × ControlFlow :=
  match e with
  | WindowEvent.CloseRequested => (s, ControlFlow.Exit)
  | WindowEvent.KeyboardInput ElementState.Pressed (some VirtualKeyCode.Escape) =>
      (s, ControlFlow.Exit)
  | WindowEvent.KeyboardInput _ _ => (s, cf)
  | WindowEvent.Resized sz => (s.resize sz, cf)
  | WindowEvent.ScaleFactorChanged sz => (s.resize sz, cf)
  | WindowEvent.OtherEvent => (s, cf)

/-- True on the two events that call state.resize. -/
def WindowEvent.isResizeEvent : WindowEvent → Bool
  | WindowEvent.Resized _ => true
  | WindowEvent.ScaleFactorChanged _ => true
  | _ => false

/-- The action the RedrawRequested arm takes on a render result. -/
inductive RedrawAction
  | continueFrame
  | resizeAndContinue
  | exitLoop
  | logAndContinue (e : SwapChainError)
deriving DecidableEq

/-- main.rs: the match on state.render() — Ok does nothing, Lost calls
state.resize(state.size), OutOfMemory sets ControlFlow::Exit, any other
error is printed with eprintln. -/
def redrawArm : Except SwapChainError Unit → RedrawAction
  | Except.ok _ => RedrawAction.continueFrame
  | Except.error SwapChainError.Lost => RedrawAction.resizeAndContinue
  | Except.error SwapChainError.OutOfMemory => RedrawAction.exitLoop
  | Except.error e => RedrawAction.logAndContinue e

/-- Control flow after a redraw action: only exitLoop leaves Poll. -/
def RedrawAction.controlFlow : RedrawAction → ControlFlow
  | RedrawAction.exitLoop => ControlFlow.Exit
  | _ => ControlFlow.Poll

/- ------------------------------------------------------------------
Concrete sample data for counterexamples and witnesses. -/

/-- A stand-in for the irrational helpers: constant one (look_at_rh and
perspective_rh are evaluated with this to obtain concrete matrices). -/
def qone : ℚ → ℚ := fun _ => 1

/-- A small cube-like mesh record: 24 vertices, 36 indices. -/
def sampleMesh : MeshData :=
  { positions := List.replicate 72 f32_one
    normals := List.replicate 72 f32_one
    texcoords := List.replicate 48 f32_zero
    indices := List.range 36 }

/-- The renderer state right after State::new on an 800 by 600 window. -/
def demoState : State :=
  State.new qone qone qone ⟨800, 600⟩ sampleMesh

/-- Claim C6: the material uniform buffer's byte layout places the three
vec3 fields at offsets 0, 16 and 32 (16-byte strides with trailing
padding) and shininess at offset 48, and for ambient=(1,0,0),
diffuse=(0,1,0), specular=(0,0,1), shininess=32.0 the buffer contents
equal the fixed expected byte sequence. -/
theorem C6_material_uniform_layout :
    MaterialRaw.toBytes materialExample = expectedMaterialBytes ∧
    expectedMaterialBytes.length = 52 ∧
    (MaterialRaw.toBytes materialExample).take 12 =
      vec3le (f32_one, f32_zero, f32_zero) ∧
    ((MaterialRaw.toBytes materialExample).drop 16).take 12 =
      vec3le (f32_zero, f32_one, f32_zero) ∧
    ((MaterialRaw.toBytes materialExample).drop 32).take 12 =
      vec3le (f32_zero, f32_zero, f32_one) ∧
    (MaterialRaw.toBytes materialExample).drop 48 = le32 f32_thirtytwo := by
  exact ⟨rfl, rfl, rfl, rfl, rfl, rfl⟩

/-- Claim C8: Camera::build_view_projection_matrix is a pure function of
the camera state (it is a plain function of the Camera value) and returns
the right-handed projection(fov, aspect, near, far) matrix multiplied by
the look_at(eye, center, up) matrix, in that order. -/
theorem C8_view_projection_order (sqrtr sinr cosr : ℚ → ℚ) (c : Camera) :
    c.build_view_projection_matrix sqrtr sinr cosr =
      (Mat4.perspective_rh sinr cosr c.fov c.aspect c.z_near c.z_far).mul
        (Mat4.look_at_rh sqrtr c.eye c.center c.up) := rfl

/-- Claim C1, counterexample: the claim says the pipeline is built with
depth testing enabled ("less" against a depth attachment) and that every
render pass clears that depth attachment to 1.0.  On the concrete initial
state the pipeline's depth_stencil_state is None and the render pass begun
by render() has no depth-stencil attachment at all. -/
theorem C1_counterexample :
    demoState.render_pipeline.depth_stencil_state = none ∧
    RenderCommand.beginRenderPass renderPassDesc ∈ renderCommands demoState ∧
    renderPassDesc.depth_stencil_attachment = none := by
  refine ⟨rfl, ?_, rfl⟩
  simp [renderCommands]

/-- Claim C1, amended: the render pipeline is built with no depth-stencil
state (depth testing disabled), and every render pass begun by render()
has no depth attachment; it clears only the color target to the fixed
background color (0.1, 0.2, 0.3, 1.0) and stores it. -/
theorem C1_no_depth_attachment (sqrtr sinr cosr : ℚ → ℚ)
    (size : PhysicalSize) (mesh : MeshData) (s : State) (f : Frame) :
    (State.new sqrtr sinr cosr size mesh).render_pipeline.depth_stencil_state
      = none ∧
    (s.render (Except.ok f)).2 = Except.ok (renderCommands s) ∧
    (renderCommands s).head? =
      some (RenderCommand.beginRenderPass renderPassDesc) ∧
    renderPassDesc.depth_stencil_attachment = none ∧
    renderPassDesc.color_load = LoadOpColor.Clear ⟨1 / 10, 2 / 10, 3 / 10, 1⟩ ∧
    renderPassDesc.color_store = true :=
  ⟨rfl, rfl, rfl, rfl, rfl, rfl⟩

/-- Claim C2, counterexample: the claim says four bind-group layouts
(camera, texture, material, light) sit at slots 0 to 3 and render() binds
all four slots.  On the concrete initial state the pipeline layout holds
exactly two bind-group layouts, and render() records no bind at slot 2 or
slot 3. -/
theorem C2_counterexample :
    demoState.render_pipeline.bind_group_layouts.length = 2 ∧
    (renderCommands demoState).countP (bindsSlot 2) = 0 ∧
    (renderCommands demoState).countP (bindsSlot 3) = 0 :=
  ⟨rfl, rfl, rfl⟩

/-- Claim C2, amended: initialization builds two bind-group layouts — the
camera uniform at slot 0 and the diffuse texture at slot 1 (the material
module's own layout is never attached to the pipeline, and no light
uniform exists) — and every render() records bind groups at slots 0 and 1
in slot order before the single draw. -/
theorem C2_two_bind_groups (sqrtr sinr cosr : ℚ → ℚ) (size : PhysicalSize)
    (mesh : MeshData) (s : State) :
    (State.new sqrtr sinr cosr size mesh).render_pipeline.bind_group_layouts
      = [uniform_bind_group_layout, texture_bind_group_layout] ∧
    renderCommands s =
      [RenderCommand.beginRenderPass renderPassDesc,
       RenderCommand.setPipeline,
       RenderCommand.setBindGroup 0
         (BoundGroup.uniformGroup s.uniform_bind_group),
       RenderCommand.setBindGroup 1 BoundGroup.diffuseGroup,
       RenderCommand.setVertexBuffer 0 s.pos_buffer,
       RenderCommand.setVertexBuffer 1 s.norm_buffer,
       RenderCommand.setVertexBuffer 2 s.tex_buffer,
       RenderCommand.setIndexBuffer s.index_buffer,
       RenderCommand.drawIndexed 0 s.num_indices 0 0 1] :=
  ⟨rfl, rfl⟩

/-- Claim C3, counterexample: the claim says resize(0, 0) is rejected and
the stored size and surface configuration keep their pre-call values.  On
the concrete initial 800 by 600 state, resize(0, 0) changes the stored
size and recreates the swap chain with a zero extent. -/
theorem C3_counterexample :
    (demoState.resize ⟨0, 0⟩).size ≠ demoState.size ∧
    (demoState.resize ⟨0, 0⟩).sc_desc.width = 0 ∧
    (demoState.resize ⟨0, 0⟩).swap_chain.width = 0 ∧
    (demoState.resize ⟨0, 0⟩).swap_chain.height = 0 := by
  refine ⟨?_, rfl, rfl, rfl⟩
  intro h
  exact absurd (congrArg PhysicalSize.width h) (by decide)

/-- Claim C3, amended: resize has no zero-size guard: a resize to (0, 0)
is accepted like any other — the stored size becomes (0, 0), the surface
configuration's width and height become 0, and a swap chain is created
from that zero-extent configuration. -/
theorem C3_zero_resize_not_rejected (s : State) :
    (s.resize ⟨0, 0⟩).size = ⟨0, 0⟩ ∧
    (s.resize ⟨0, 0⟩).sc_desc =
      { s.sc_desc with width := 0, height := 0 } ∧
    (s.resize ⟨0, 0⟩).swap_chain =
      createSwapChain s.surface { s.sc_desc with width := 0, height := 0 } :=
  ⟨rfl, rfl, rfl⟩

/-- Claim C4, counterexample: the claim says that after resize(400, 600)
the camera's aspect ratio equals 400 / 600.  The State stores no camera;
the only place the aspect ratio survives is the view-projection uniform
bound at slot 0, and after the resize that uniform is still the one built
from the initial 800 / 600 camera, not the one a 400 / 600 camera would
produce. -/
theorem C4_counterexample :
    (demoState.resize ⟨400, 600⟩).uniform_bind_group ≠
      Uniforms.new qone qone qone (initCamera 400 600) ∧
    (demoState.resize ⟨400, 600⟩).uniform_bind_group =
      Uniforms.new qone qone qone (initCamera 800 600) := by
  refine ⟨?_, rfl⟩
  intro h
  have h2 := congrArg (fun u => u.view_proj.x_axis.x) h
  norm_num [demoState, State.new, State.resize, Uniforms.new,
    Camera.build_view_projection_matrix, Mat4.perspective_rh,
    Mat4.look_at_rh, Mat4.look_to_rh, Mat4.look_to_lh, Mat4.mul,
    Mat4.mul_vec4, Vec4.scale, Vec4.add, Vec3.normalize, Vec3.dot,
    Vec3.cross, Vec3.sub, Vec3.neg, initCamera, qone] at h2

/-- Claim C4, amended: resize updates the stored size and the surface
configuration's dimensions but does not recompute any camera aspect
ratio: State stores no camera, and the view-projection uniform bound at
slot 0 is left exactly as initialization built it. -/
theorem C4_resize_keeps_initial_aspect (s : State) (ns : PhysicalSize) :
    (s.resize ns).uniform_bind_group = s.uniform_bind_group ∧
    (s.resize ns).size = ns ∧
    (s.resize ns).sc_desc.width = ns.width ∧
    (s.resize ns).sc_desc.height = ns.height :=
  ⟨rfl, rfl, rfl, rfl⟩

/-- Claim C5: State::new records num_indices = mesh.indices.len(), and
every successful render() records exactly one indexed draw, over the full
index range [0, num_indices) with the single instance range [0, 1). -/
theorem C5_single_indexed_draw (sqrtr sinr cosr : ℚ → ℚ)
    (size : PhysicalSize) (mesh : MeshData) (s : State) (f : Frame) :
    (State.new sqrtr sinr cosr size mesh).num_indices =
      mesh.indices.length ∧
    (s.render (Except.ok f)).2 = Except.ok (renderCommands s) ∧
    (renderCommands s).countP isDrawIndexed = 1 ∧
    RenderCommand.drawIndexed 0 s.num_indices 0 0 1 ∈ renderCommands s := by
  refine ⟨rfl, rfl, rfl, ?_⟩
  simp [renderCommands]

/-- Claim C7, counterexample: the claim puts surface-outdated in the
recoverable class that triggers a resize-equivalent reconfiguration.  The
RedrawRequested arm matches only Lost for that path; Outdated falls into
the catch-all and is merely logged. -/
theorem C7_counterexample :
    redrawArm (Except.error SwapChainError.Outdated) =
      RedrawAction.logAndContinue SwapChainError.Outdated ∧
    redrawArm (Except.error SwapChainError.Outdated) ≠
      RedrawAction.resizeAndContinue := by
  decide

/-- Claim C7, amended: per-frame failure handling — a Lost surface
triggers the resize-equivalent reconfiguration and skips the frame with
the loop continuing; OutOfMemory terminates the loop; every other
acquisition error (Outdated, Timeout) is logged, the frame is skipped and
the loop continues. -/
theorem C7_redraw_taxonomy :
    redrawArm (Except.ok ()) = RedrawAction.continueFrame ∧
    redrawArm (Except.error SwapChainError.Lost) =
      RedrawAction.resizeAndContinue ∧
    redrawArm (Except.error SwapChainError.OutOfMemory) =
      RedrawAction.exitLoop ∧
    redrawArm (Except.error SwapChainError.Outdated) =
      RedrawAction.logAndContinue SwapChainError.Outdated ∧
    redrawArm (Except.error SwapChainError.Timeout) =
      RedrawAction.logAndContinue SwapChainError.Timeout ∧
    RedrawAction.controlFlow RedrawAction.resizeAndContinue =
      ControlFlow.Poll ∧
    RedrawAction.controlFlow
      (RedrawAction.logAndContinue SwapChainError.Outdated) =
      ControlFlow.Poll ∧
    RedrawAction.controlFlow RedrawAction.exitLoop = ControlFlow.Exit := by
  decide

/-- Claim C9, counterexample: the claim says every window event that is
neither a resize nor a close request leaves the renderer state and the
control flow unchanged.  A pressed Escape key is neither, yet it sets
ControlFlow::Exit. -/
theorem C9_counterexample :
    handleWindowEvent demoState ControlFlow.Poll
        (WindowEvent.KeyboardInput ElementState.Pressed
          (some VirtualKeyCode.Escape)) ≠
      (demoState, ControlFlow.Poll) :=
  fun h => ControlFlow.noConfusion (congrArg Prod.snd h)

/-- Claim C9, amended: every window event that is not a resize event
(Resized or ScaleFactorChanged), not a close request, and not a pressed
Escape key leaves the renderer state and the control flow unchanged. -/
theorem C9_other_events_ignored (s : State) (cf : ControlFlow)
    (e : WindowEvent)
    (h1 : e.isResizeEvent = false)
    (h2 : e ≠ WindowEvent.CloseRequested)
    (h3 : e ≠ WindowEvent.KeyboardInput ElementState.Pressed
      (some VirtualKeyCode.Escape)) :
    handleWindowEvent s cf e = (s, cf) := by
  cases e with
  | CloseRequested => exact absurd rfl h2
  | KeyboardInput st kc =>
      cases st with
      | Pressed =>
          cases kc with
          | none => rfl
          | some k =>
              cases k with
              | Escape => exact absurd rfl h3
              | OtherKey => rfl
      | Released =>
          cases kc with
          | none => rfl
          | some k => cases k with
              | Escape => rfl
              | OtherKey => rfl
  | Resized sz => simp [WindowEvent.isResizeEvent] at h1
  | ScaleFactorChanged sz => simp [WindowEvent.isResizeEvent] at h1
  | OtherEvent => rfl

/-- Claim C9, witness: a cursor-moved-style event (OtherEvent) on the
concrete initial state is ignored. -/
theorem C9_witness :
    handleWindowEvent demoState ControlFlow.Poll WindowEvent.OtherEvent =
      (demoState, ControlFlow.Poll) :=
  C9_other_events_ignored demoState ControlFlow.Poll WindowEvent.OtherEvent
    rfl (by decide) (by decide)

/-- Claim C10: render() is atomic on acquisition failure — when
get_current_frame returns an error, render() returns exactly that error,
records no commands, and the State value is returned unchanged. -/
theorem C10_render_atomic_on_failure (s : State) (e : SwapChainError) :
    s.render (Except.error e) = (s, Except.error e) := rfl

end Wr3d
